import Mathlib

/-!
Shallow embedding of `agno_agent.py`, a FastAPI service that receives a PDF
of a B3/XP trade confirmation, extracts its text with pypdf, and forwards a
prompt to a chat-completion service.

Python strings are modelled as Lean `String` (slicing and iteration are per
code point in both); `os.getenv` results and possibly-missing headers are
`Option String`; Python truthiness of strings (`if not s`) is `pyTruthy`;
exceptions are `Except String`; the two external black boxes (pypdf's
`PdfReader` and the OpenAI chat-completion client) are function parameters;
observable side effects (the temporary-file store and the outbound calls)
are threaded explicitly as a file-system state and an event trace.
-/

/-- Python truthiness of an optional string: `None` and `""` are falsy. -/
def pyTruthy : Option String → Bool
  | none => false
  | some s => !(s == "")

/-- Python `str.startswith`: code-point level check of the given leading text. -/
def pyStartswith (s pre : String) : Bool :=
  pre.data.isPrefixOf s.data

/-- The whitespace class stripped by Python `str.strip()` (ASCII part). -/
def pyIsSpace (c : Char) : Bool :=
  c == ' ' || c == '\t' || c == '\n' || c == '\r' || c == '\x0b' || c == '\x0c'

/-- Python `str.strip()`: drop leading and trailing whitespace. -/
def pyStrip (s : String) : String :=
  ⟨((s.data.dropWhile pyIsSpace).reverse.dropWhile pyIsSpace).reverse⟩

/-- Python `s[:n]` on a string: the first `n` code points. -/
def pySlice (s : String) (n : Nat) : String :=
  ⟨s.data.take n⟩

/-- A JSON scalar as used by this service (strings and `null` only). -/
inductive JVal where
  | jnull
  | jstr (s : String)
deriving DecidableEq, Repr

/-- A flat JSON object, as an ordered association list. -/
abbrev JsonObj := List (String × JVal)

/-- An inbound HTTP request, as seen by the middleware. -/
structure HttpRequest where
  method : String
  path : String
  headers : List (String × String)
  body : List Nat
deriving DecidableEq, Repr

/-- An HTTP response: transport status plus JSON body. -/
structure HttpResponse where
  status_code : Nat
  body : JsonObj
deriving DecidableEq, Repr

/-- `request.headers.get(k)`: first binding of the key, if any. -/
def headers_get (headers : List (String × String)) (k : String) : Option String :=
  (headers.find? (fun p => p.1 == k)).map (fun p => p.2)

/-- A temporary file as created by `tempfile.NamedTemporaryFile`:
its content and the `delete` flag it was opened with. -/
structure TempFile where
  content : List Nat
  delete : Bool
deriving DecidableEq, Repr

/-- The observable temporary-file store. -/
structure FS where
  files : List TempFile
deriving DecidableEq, Repr

/-- A page of a parsed PDF: `page.extract_text()` may yield no text (`None`). -/
structure PdfPage where
  extract_text : Option String
deriving DecidableEq, Repr

/-- A parsed PDF document (`PdfReader`): its pages in document order. -/
structure PdfDoc where
  pages : List PdfPage
deriving DecidableEq, Repr

/-- A role-tagged chat message. -/
structure ChatMessage where
  role : String
  content : String
deriving DecidableEq, Repr

/-- The outbound chat-completion request (`client.chat.completions.create`). -/
structure ChatRequest where
  model : String
  temperature : Nat
  messages : List ChatMessage
deriving DecidableEq, Repr

/-- The message inside one completion choice; `content` may be `None`. -/
structure ChatCompletionMessage where
  content : Option String
deriving DecidableEq, Repr

/-- One completion choice. -/
structure Choice where
  message : ChatCompletionMessage
deriving DecidableEq, Repr

/-- A chat-completion response: its list of choices. -/
structure Completion where
  choices : List Choice
deriving DecidableEq, Repr

/-- Observable outbound effects of the `/predict` handler. -/
inductive Event where
  | extractCall (bytes : List Nat)
  | modelCall (req : ChatRequest)
deriving DecidableEq, Repr

/-- The fixed 401 body produced by the guard: `{"detail": "Unauthorized"}`. -/
def unauthorized_response : HttpResponse :=
  { status_code := 401, body := [("detail", JVal.jstr "Unauthorized")] }

/-- The guard's rejection decision, a function of the path and headers only:
the path starts with `/predict` and (`not API_KEY` or the `X-API-Key`
header differs from `API_KEY`). -/
def guard_rejects (API_KEY : Option String) (path : String)
    (headers : List (String × String)) : Bool :=
  pyStartswith path "/predict" &&
    (!(pyTruthy API_KEY) || headers_get headers "X-API-Key" != API_KEY)

/-- The `api_key_guard` middleware: on any request whose path starts with
`/predict`, compare the `X-API-Key` header against the configured `API_KEY`;
reject with a fixed 401 JSON body, or pass the request on to `call_next`.
The downstream handler may touch the file store and emit events, so
`call_next` returns a response together with the new store and trace. -/
def api_key_guard (API_KEY : Option String) (request : HttpRequest)
    (call_next : HttpRequest → HttpResponse × FS × List Event)
    (fs : FS) : HttpResponse × FS × List Event :=
  if pyStartswith request.path "/predict" then
    let key := headers_get request.headers "X-API-Key"
    if !(pyTruthy API_KEY) || key != API_KEY then
      (unauthorized_response, fs, [])
    else
      call_next request
  else
    call_next request

/-- `extract_text_from_pdf`: write the bytes to a named temporary file opened
with `delete=False`, parse it with `PdfReader` (the `readPdf` black box,
which may raise), concatenate `page.extract_text() or ""` over the pages in
order, and strip the result.  Leaving the `with` block closes the temporary
file; the file itself is removed only when its `delete` flag is set. -/
def extract_text_from_pdf (readPdf : List Nat → Except String PdfDoc)
    (file_bytes : List Nat) (fs : FS) : Except String String × FS :=
  let tmp : TempFile := { content := file_bytes, delete := false }
  let fs1 : FS := { files := fs.files ++ [tmp] }
  let closeTmp : FS → FS := fun f =>
    if tmp.delete then { files := f.files.filter (fun t => !(t == tmp)) } else f
  match readPdf file_bytes with
  | Except.error e => (Except.error e, closeTmp fs1)
  | Except.ok reader =>
      let text := reader.pages.foldl
        (fun acc page => acc ++ page.extract_text.getD "") ""
      (Except.ok (pyStrip text), closeTmp fs1)

/-- The fixed part of the f-string prompt before the `{text[:6000]}`
substitution (indentation and line breaks as in the source literal). -/
def PROMPT_HEAD : String :=
  "\n        Extraia do texto abaixo os principais campos de uma nota de negociação B3 (XP):\n        - Data do pregão\n        - Número da nota\n        - Valor dos negócios\n        - Total de custos operacionais\n        - IRRF (projeção)\n        - Total líquido da nota\n        Retorne em JSON estruturado com os nomes das chaves exatamente assim:\n        \x7b \"data_pregao\": \"\", \"nota_numero\": \"\", \"valor_negocios\": \"\", \n           \"total_custos\": \"\", \"irrf_proj\": \"\", \"total_liquido_nota\": \"\" \x7d\n        Texto extraído:\n        "

/-- The fixed part of the f-string prompt after the substitution. -/
def PROMPT_TAIL : String :=
  "  # limita para evitar estouro de tokens\n        "

/-- The prompt: the fixed template with `text[:6000]` substituted in. -/
def build_prompt (text : String) : String :=
  PROMPT_HEAD ++ pySlice text 6000 ++ PROMPT_TAIL

/-- The fixed system instruction sent with every model call. -/
def SYSTEM_INSTRUCTION : String :=
  "Você é um extrator preciso de informações de PDFs da XP/B3."

/-- The in-band error body text for a PDF with no extractable text. -/
def EMPTY_TEXT_ERROR : String := "Nenhum texto encontrado no PDF."

/-- The argument of `client.chat.completions.create`: model `gpt-4o-mini`,
temperature 0, and the two role-tagged messages. -/
def chat_request (text : String) : ChatRequest :=
  { model := "gpt-4o-mini"
    temperature := 0
    messages :=
      [ { role := "system", content := SYSTEM_INSTRUCTION }
      , { role := "user", content := build_prompt text } ] }

/-- `resposta` as placed in the response JSON: `None` becomes JSON `null`. -/
def jvalOfContent : Option String → JVal
  | none => JVal.jnull
  | some s => JVal.jstr s

/-- The body of the `POST /predict` handler after the guard.  `file_read`
is the outcome of `await file.read()`, `readPdf` and `complete` are the two
external black boxes.  Every exception raised inside the `try` block is
caught by the blanket `except` and serialized as `{"error": str(e)}`; a
plain dict return carries transport status 200.  The returned trace records
the extraction call and the outbound model call, in order. -/
def predict (complete : ChatRequest → Except String Completion)
    (readPdf : List Nat → Except String PdfDoc)
    (file_read : Except String (List Nat))
    (fs : FS) : HttpResponse × FS × List Event :=
  match file_read with
  | Except.error e =>
      ({ status_code := 200, body := [("error", JVal.jstr e)] }, fs, [])
  | Except.ok file_bytes =>
    match extract_text_from_pdf readPdf file_bytes fs with
    | (Except.error e, fs1) =>
        ({ status_code := 200, body := [("error", JVal.jstr e)] }, fs1,
         [Event.extractCall file_bytes])
    | (Except.ok text, fs1) =>
      if text == "" then
        ({ status_code := 200, body := [("error", JVal.jstr EMPTY_TEXT_ERROR)] },
         fs1, [Event.extractCall file_bytes])
      else
        let req := chat_request text
        match complete req with
        | Except.error e =>
            ({ status_code := 200, body := [("error", JVal.jstr e)] }, fs1,
             [Event.extractCall file_bytes, Event.modelCall req])
        | Except.ok completion =>
          match completion.choices with
          | [] =>
              ({ status_code := 200,
                 body := [("error", JVal.jstr "list index out of range")] }, fs1,
               [Event.extractCall file_bytes, Event.modelCall req])
          | choice :: _ =>
              ({ status_code := 200,
                 body := [("resultado", jvalOfContent choice.message.content)] },
               fs1, [Event.extractCall file_bytes, Event.modelCall req])

/-- The service's handling of a request to `/predict`: the guard middleware
wrapped around the endpoint handler. -/
def app_predict (API_KEY : Option String)
    (complete : ChatRequest → Except String Completion)
    (readPdf : List Nat → Except String PdfDoc)
    (request : HttpRequest)
    (file_read : Except String (List Nat))
    (fs : FS) : HttpResponse × FS × List Event :=
  api_key_guard API_KEY request (fun _r => predict complete readPdf file_read fs) fs

/-- Module-level initialization: read `OPENAI_API_KEY` and `API_KEY` once;
raise `RuntimeError` when `OPENAI_API_KEY` is falsy, otherwise build the
client handle (carrying the credential) and keep the optional shared
secret.  Returns the process-wide configuration. -/
def startup (openai_api_key api_key : Option String) :
    Except String (String × Option String) :=
  if !(pyTruthy openai_api_key) then
    Except.error "❌ Variável de ambiente OPENAI_API_KEY não configurada."
  else
    Except.ok (openai_api_key.getD "", api_key)

/-- Spec-side page concatenation: each page's best-effort text, a page with
no extractable text contributing the empty string, joined in document
order. -/
def pagesJoined (doc : PdfDoc) : String :=
  String.join (doc.pages.map (fun p => p.extract_text.getD ""))

/-! Concrete fixtures used to evaluate the development on closed inputs. -/

/-- A one-page document whose page yields the text `"hello"`. -/
def sampleDoc : PdfDoc := ⟨[⟨some "hello"⟩]⟩

/-- A document whose pages yield no extractable text at all. -/
def blankDoc : PdfDoc := ⟨[⟨none⟩, ⟨none⟩]⟩

/-- A reader black box that parses every byte string as `sampleDoc`. -/
def readPdfSample : List Nat → Except String PdfDoc := fun _ => Except.ok sampleDoc

/-- A reader black box that parses every byte string as `blankDoc`. -/
def readPdfBlankDoc : List Nat → Except String PdfDoc := fun _ => Except.ok blankDoc

/-- A reader black box that rejects every byte string. -/
def readPdfReject : List Nat → Except String PdfDoc := fun _ => Except.error "bad pdf"

/-- A completion black box that fails every call (network failure). -/
def completeReject : ChatRequest → Except String Completion :=
  fun _ => Except.error "network down"

/-- A completion black box that answers every call with one choice. -/
def completeSample : ChatRequest → Except String Completion :=
  fun _ => Except.ok ⟨[⟨⟨some "resultado json"⟩⟩]⟩

/-- A completion black box that answers with an empty list of choices. -/
def completeNoChoices : ChatRequest → Except String Completion :=
  fun _ => Except.ok ⟨[]⟩

/-- An authorized request to the registered route, with secret `"s3cret"`. -/
def authorizedRequest : HttpRequest :=
  ⟨"POST", "/predict", [("X-API-Key", "s3cret")], [1, 2, 3]⟩

/-- A request to the registered route carrying no `X-API-Key` header. -/
def noKeyRequest : HttpRequest := ⟨"POST", "/predict", [], [1]⟩

/-- A request to the registered route with an empty `X-API-Key` value. -/
def emptyKeyRequest : HttpRequest := ⟨"POST", "/predict", [("X-API-Key", "")], [1]⟩

/-- A request to the unprotected root route. -/
def rootRequest : HttpRequest := ⟨"GET", "/", [], []⟩

/-- A downstream handler with a fixed, recognizable result. -/
def constHandler : HttpRequest → HttpResponse × FS × List Event :=
  fun _ => (⟨200, []⟩, ⟨[]⟩, [])

/-! Helper lemmas about the embedded operations. -/

/-- When the reader succeeds, `extract_text_from_pdf` returns the stripped
page concatenation and leaves the written temporary file in the store. -/
theorem extract_fst_ok (readPdf : List Nat → Except String PdfDoc)
    (bytes : List Nat) (fs : FS) (doc : PdfDoc)
    (h : readPdf bytes = Except.ok doc) :
    extract_text_from_pdf readPdf bytes fs
      = (Except.ok (pyStrip (pagesJoined doc)),
         ⟨fs.files ++ [⟨bytes, false⟩]⟩) := by
  unfold extract_text_from_pdf pagesJoined
  rw [h]
  simp [String.join, List.foldl_map]

/-- When the reader raises, the exception propagates and the written
temporary file likewise stays in the store. -/
theorem extract_fst_err (readPdf : List Nat → Except String PdfDoc)
    (bytes : List Nat) (fs : FS) (e : String)
    (h : readPdf bytes = Except.error e) :
    extract_text_from_pdf readPdf bytes fs
      = (Except.error e, ⟨fs.files ++ [⟨bytes, false⟩]⟩) := by
  unfold extract_text_from_pdf
  rw [h]
  rfl

/-- With a non-empty secret and a matching header, the middleware hands the
request to the `/predict` endpoint handler. -/
theorem app_predict_authorized (k : String) (hk : k ≠ "") (req : HttpRequest)
    (hp : pyStartswith req.path "/predict" = true)
    (hh : headers_get req.headers "X-API-Key" = some k)
    (complete : ChatRequest → Except String Completion)
    (readPdf : List Nat → Except String PdfDoc)
    (file_read : Except String (List Nat)) (fs : FS) :
    app_predict (some k) complete readPdf req file_read fs
      = predict complete readPdf file_read fs := by
  have h1 : pyTruthy (some k) = true := by simp [pyTruthy, hk]
  simp [app_predict, api_key_guard, hp, hh, h1]

/-- Pages that all yield `None` concatenate to the empty string. -/
theorem pagesJoined_all_none (pages : List PdfPage)
    (h : ∀ p ∈ pages, p.extract_text = none) :
    String.join (pages.map (fun p => p.extract_text.getD "")) = "" := by
  induction pages with
  | nil => rfl
  | cons a l ih =>
      have ha : a.extract_text = none := h a (by simp)
      have hl : ∀ p ∈ l, p.extract_text = none := fun p hp => h p (by simp [hp])
      simpa [String.join, ha] using ih hl

/-- C3 counterexample: on a concrete upload `[1, 2, 3]`, after
`extract_text_from_pdf` returns — successfully or with the reader
raising — the temporary file holding the uploaded bytes is still present
in the store, refuting "guaranteed to be cleaned up (deleted) by the time
the operation returns" and "no uploaded content is retained". -/
theorem extract_tempfile_persists_concrete :
    (extract_text_from_pdf readPdfSample [1, 2, 3] ⟨[]⟩).2
        = ⟨[⟨[1, 2, 3], false⟩]⟩
    ∧ (extract_text_from_pdf readPdfReject [1, 2, 3] ⟨[]⟩).2
        = ⟨[⟨[1, 2, 3], false⟩]⟩ :=
  ⟨rfl, rfl⟩

/-- C3 (amended): the temporary file is acquired in a scoped `with` block,
but it is opened with `delete=False` and never unlinked, so for every
reader outcome (success or exception) the operation returns with the
temporary file holding the uploaded bytes still in the store. -/
theorem extract_tempfile_persists (readPdf : List Nat → Except String PdfDoc)
    (file_bytes : List Nat) (fs : FS) :
    (extract_text_from_pdf readPdf file_bytes fs).2
      = ⟨fs.files ++ [⟨file_bytes, false⟩]⟩ := by
  unfold extract_text_from_pdf
  cases readPdf file_bytes <;> rfl

/-- C8: on a valid PDF, extraction returns the stripped concatenation of the
pages' texts in document order, a page yielding no extractable text
contributing the empty string; when every page yields nothing, the result
is the (empty) string rather than a failure. -/
theorem extract_concatenates_pages_in_order
    (readPdf : List Nat → Except String PdfDoc) (bytes : List Nat) (fs : FS)
    (doc : PdfDoc) (h : readPdf bytes = Except.ok doc) :
    (extract_text_from_pdf readPdf bytes fs).1
        = Except.ok (pyStrip (pagesJoined doc))
    ∧ ((∀ p ∈ doc.pages, p.extract_text = none) →
        (extract_text_from_pdf readPdf bytes fs).1 = Except.ok "") := by
  have hx := extract_fst_ok readPdf bytes fs doc h
  refine ⟨by rw [hx], fun hall => ?_⟩
  rw [hx]
  have hz : pagesJoined doc = "" := by
    unfold pagesJoined
    exact pagesJoined_all_none doc.pages hall
  rw [hz]
  rfl

/-- C8 witness: a concrete all-blank two-page document. -/
theorem extract_concatenates_pages_in_order_witness :
    (extract_text_from_pdf readPdfBlankDoc [9] ⟨[]⟩).1
        = Except.ok (pyStrip (pagesJoined blankDoc))
    ∧ (extract_text_from_pdf readPdfBlankDoc [9] ⟨[]⟩).1 = Except.ok "" := by
  have h := extract_concatenates_pages_in_order readPdfBlankDoc [9] ⟨[]⟩ blankDoc rfl
  exact ⟨h.1, h.2 (by decide)⟩

/-- C4: the model call carries exactly the fixed system instruction and the
user prompt whose embedded context is `text[:6000]`: the slice agrees with
the text below index 6000, contains nothing at index 6000 or beyond, and
equals the whole text when the text has at most 6000 characters. -/
theorem prompt_truncates_to_6000 (text : String) :
    (chat_request text).messages.map ChatMessage.content
        = [SYSTEM_INSTRUCTION, PROMPT_HEAD ++ pySlice text 6000 ++ PROMPT_TAIL]
    ∧ (pySlice text 6000).data = text.data.take 6000
    ∧ (∀ i : Nat, i < 6000 → (pySlice text 6000).data[i]? = text.data[i]?)
    ∧ (∀ i : Nat, 6000 ≤ i → (pySlice text 6000).data[i]? = none)
    ∧ (text.data.length ≤ 6000 → pySlice text 6000 = text) := by
  refine ⟨rfl, rfl, ?_, ?_, ?_⟩
  · intro i hi
    exact List.getElem?_take_of_lt hi
  · intro i hi
    apply List.getElem?_eq_none
    calc (pySlice text 6000).data.length ≤ 6000 := List.length_take_le _ _
      _ ≤ i := hi
  · intro hlen
    cases text with
    | mk l =>
        show (⟨l.take 6000⟩ : String) = ⟨l⟩
        rw [List.take_of_length_le hlen]

/-- C4 witness: the short text `"abc"` passes through untruncated. -/
theorem prompt_truncates_to_6000_witness :
    (chat_request "abc").messages.map ChatMessage.content
        = [SYSTEM_INSTRUCTION, PROMPT_HEAD ++ pySlice "abc" 6000 ++ PROMPT_TAIL]
    ∧ (pySlice "abc" 6000).data[0]? = "abc".data[0]?
    ∧ (pySlice "abc" 6000).data[6000]? = none
    ∧ pySlice "abc" 6000 = "abc" := by
  have h := prompt_truncates_to_6000 "abc"
  exact ⟨h.1, h.2.2.1 0 (by decide), h.2.2.2.1 6000 (by decide),
         h.2.2.2.2 (by decide)⟩

/-- C1 counterexample: configure the secret as the empty string (set, but
empty) and send an `X-API-Key` header whose value equals it.  The header
equals the configured secret, yet the guard answers 401 instead of
forwarding: had it forwarded, the handler would have produced a 200. -/
theorem guard_empty_secret_not_forwarded :
    headers_get emptyKeyRequest.headers "X-API-Key" = some ""
    ∧ app_predict (some "") completeSample readPdfSample emptyKeyRequest
        (Except.ok [1]) ⟨[]⟩ = (unauthorized_response, ⟨[]⟩, [])
    ∧ (predict completeSample readPdfSample (Except.ok [1]) ⟨[]⟩).1.status_code
        = 200 :=
  ⟨rfl, rfl, rfl⟩

/-- C1 (amended): on the `/predict` route, if the secret is unset, or set to
the empty string, or the `X-API-Key` header is missing or differs from it,
the response is the fixed 401 body and the downstream pipeline is never
invoked (empty trace, untouched store); if the secret is a non-empty string
and the header equals it, the request is forwarded unchanged. -/
theorem guard_unauthorized_rules (API_KEY : Option String) (req : HttpRequest)
    (hp : req.path = "/predict") :
    ((API_KEY = none ∨ API_KEY = some ""
        ∨ headers_get req.headers "X-API-Key" = none
        ∨ headers_get req.headers "X-API-Key" ≠ API_KEY) →
      ∀ (complete : ChatRequest → Except String Completion)
        (readPdf : List Nat → Except String PdfDoc)
        (file_read : Except String (List Nat)) (fs : FS),
        app_predict API_KEY complete readPdf req file_read fs
          = (unauthorized_response, fs, []))
    ∧ (∀ k : String, API_KEY = some k → k ≠ "" →
        headers_get req.headers "X-API-Key" = some k →
        ∀ (call_next : HttpRequest → HttpResponse × FS × List Event) (fs : FS),
          api_key_guard API_KEY req call_next fs = call_next req) := by
  have hs : pyStartswith req.path "/predict" = true := by
    rw [hp]; decide
  constructor
  · intro h complete readPdf file_read fs
    have hcond :
        (!(pyTruthy API_KEY)
          || headers_get req.headers "X-API-Key" != API_KEY) = true := by
      rcases h with h | h | h | h
      · subst h; rfl
      · subst h; rfl
      · rw [h]
        cases API_KEY with
        | none => rfl
        | some s => simp [bne]
      · have hb : (headers_get req.headers "X-API-Key" != API_KEY) = true :=
          bne_iff_ne.mpr h
        simp [hb]
    simp [app_predict, api_key_guard, hs, hcond]
  · intro k hk hkne hh call_next fs
    subst hk
    have h1 : pyTruthy (some k) = true := by simp [pyTruthy, hkne]
    simp [api_key_guard, hs, hh, h1]

/-- C1 witness: a missing secret is rejected with an empty trace; the
matching non-empty secret `"s3cret"` is forwarded unchanged. -/
theorem guard_unauthorized_rules_witness :
    app_predict none completeSample readPdfSample noKeyRequest
        (Except.ok [1]) ⟨[]⟩ = (unauthorized_response, ⟨[]⟩, [])
    ∧ api_key_guard (some "s3cret") authorizedRequest constHandler ⟨[]⟩
        = constHandler authorizedRequest := by
  have h1 := (guard_unauthorized_rules none noKeyRequest rfl).1 (Or.inl rfl)
    completeSample readPdfSample (Except.ok [1]) ⟨[]⟩
  have h2 := (guard_unauthorized_rules (some "s3cret") authorizedRequest rfl).2
    "s3cret" rfl (by decide) rfl constHandler ⟨[]⟩
  exact ⟨h1, h2⟩

/-- C9: reading the configuration at process start: a falsy
`OPENAI_API_KEY` aborts initialization with the fixed `RuntimeError`; an
absent `API_KEY` still yields a configuration, but then the guard rejects
every request on the protected route. -/
theorem startup_config_rules :
    (∀ api_key : Option String,
        startup none api_key
          = Except.error "❌ Variável de ambiente OPENAI_API_KEY não configurada.")
    ∧ (∀ openai_key : Option String, pyTruthy openai_key = true →
        startup openai_key none = Except.ok (openai_key.getD "", none))
    ∧ (∀ req : HttpRequest, pyStartswith req.path "/predict" = true →
        ∀ (call_next : HttpRequest → HttpResponse × FS × List Event) (fs : FS),
          api_key_guard none req call_next fs = (unauthorized_response, fs, [])) := by
  refine ⟨fun api_key => rfl, ?_, ?_⟩
  · intro openai_key hok
    simp [startup, hok]
  · intro req hs call_next fs
    simp [api_key_guard, hs, pyTruthy]

/-- C9 witness: concrete environments for both outcomes, and a concrete
rejected request under an absent secret. -/
theorem startup_config_rules_witness :
    startup none (some "k")
        = Except.error "❌ Variável de ambiente OPENAI_API_KEY não configurada."
    ∧ startup (some "sk-test") none = Except.ok ("sk-test", none)
    ∧ api_key_guard none authorizedRequest constHandler ⟨[]⟩
        = (unauthorized_response, ⟨[]⟩, []) := by
  have h := startup_config_rules
  exact ⟨h.1 (some "k"), h.2.1 (some "sk-test") (by decide),
         h.2.2 authorizedRequest (by decide) constHandler ⟨[]⟩⟩

/-- C10: the guard covers exactly the requests whose path begins with
`/predict` — including non-route paths such as `/predictfoo` and
`/predict/anything` — and bypasses all others; its accept/reject decision
`guard_rejects` is a function of the path and the `X-API-Key` header
lookup alone, so the method and body never influence it. -/
theorem guard_scope_and_inputs (API_KEY : Option String) (req : HttpRequest)
    (call_next : HttpRequest → HttpResponse × FS × List Event) (fs : FS) :
    (api_key_guard API_KEY req call_next fs
        = if guard_rejects API_KEY req.path req.headers
          then (unauthorized_response, fs, [])
          else call_next req)
    ∧ (pyStartswith req.path "/predict" = false →
        api_key_guard API_KEY req call_next fs = call_next req)
    ∧ pyStartswith "/predictfoo" "/predict" = true
    ∧ pyStartswith "/predict/anything" "/predict" = true
    ∧ pyStartswith "/" "/predict" = false
    ∧ (∀ path₁ path₂ : String, ∀ headers₁ headers₂ : List (String × String),
        pyStartswith path₁ "/predict" = pyStartswith path₂ "/predict" →
        headers_get headers₁ "X-API-Key" = headers_get headers₂ "X-API-Key" →
        guard_rejects API_KEY path₁ headers₁
          = guard_rejects API_KEY path₂ headers₂) := by
  refine ⟨?_, ?_, by decide, by decide, by decide, ?_⟩
  · unfold api_key_guard guard_rejects
    cases hs : pyStartswith req.path "/predict" <;> simp [hs]
  · intro hs
    simp [api_key_guard, hs]
  · intro path₁ path₂ headers₁ headers₂ hpp hhh
    unfold guard_rejects
    rw [hpp, hhh]

/-- C10 witness: the root route bypasses the guard, and the decision for
`/predict` is unchanged by an unrelated header (hence by method or body,
which `guard_rejects` does not even consume). -/
theorem guard_scope_and_inputs_witness :
    api_key_guard none rootRequest constHandler ⟨[]⟩ = constHandler rootRequest
    ∧ guard_rejects none "/predict" []
        = guard_rejects none "/predict" [("Content-Type", "application/pdf")] := by
  have h := guard_scope_and_inputs none rootRequest constHandler ⟨[]⟩
  exact ⟨h.2.1 (by decide),
         h.2.2.2.2.2 "/predict" "/predict" []
           [("Content-Type", "application/pdf")] rfl rfl⟩

/-- C2: an authorized `/predict` request whose PDF yields an empty stripped
text answers exactly `{"error": "Nenhum texto encontrado no PDF."}` and the
trace contains no outbound model call. -/
theorem predict_empty_text_short_circuits
    (k : String) (hk : k ≠ "") (req : HttpRequest) (hp : req.path = "/predict")
    (hh : headers_get req.headers "X-API-Key" = some k)
    (complete : ChatRequest → Except String Completion)
    (readPdf : List Nat → Except String PdfDoc)
    (bytes : List Nat) (fs : FS) (doc : PdfDoc)
    (hdoc : readPdf bytes = Except.ok doc)
    (hempty : pyStrip (pagesJoined doc) = "") :
    app_predict (some k) complete readPdf req (Except.ok bytes) fs
      = (⟨200, [("error", JVal.jstr EMPTY_TEXT_ERROR)]⟩,
         ⟨fs.files ++ [⟨bytes, false⟩]⟩, [Event.extractCall bytes])
    ∧ ∀ r : ChatRequest, Event.modelCall r
        ∉ (app_predict (some k) complete readPdf req (Except.ok bytes) fs).2.2 := by
  have happ := app_predict_authorized k hk req (by rw [hp]; decide) hh
    complete readPdf (Except.ok bytes) fs
  have hx := extract_fst_ok readPdf bytes fs doc hdoc
  have hmain : app_predict (some k) complete readPdf req (Except.ok bytes) fs
      = (⟨200, [("error", JVal.jstr EMPTY_TEXT_ERROR)]⟩,
         ⟨fs.files ++ [⟨bytes, false⟩]⟩, [Event.extractCall bytes]) := by
    rw [happ]
    simp [predict, hx, hempty]
  refine ⟨hmain, fun r => ?_⟩
  rw [hmain]
  simp

/-- C2 witness: a blank two-page document under the secret `"s3cret"`. -/
theorem predict_empty_text_short_circuits_witness :
    app_predict (some "s3cret") completeSample readPdfBlankDoc authorizedRequest
        (Except.ok [9]) ⟨[]⟩
      = (⟨200, [("error", JVal.jstr EMPTY_TEXT_ERROR)]⟩,
         ⟨[⟨[9], false⟩]⟩, [Event.extractCall [9]])
    ∧ Event.modelCall (chat_request "hello")
        ∉ (app_predict (some "s3cret") completeSample readPdfBlankDoc
            authorizedRequest (Except.ok [9]) ⟨[]⟩).2.2 := by
  have h := predict_empty_text_short_circuits "s3cret" (by decide)
    authorizedRequest rfl rfl completeSample readPdfBlankDoc [9] ⟨[]⟩ blankDoc
    rfl (by decide)
  exact ⟨h.1, h.2 (chat_request "hello")⟩

/-- C5: an authorized request with non-empty extracted text produces exactly
one outbound model call — whatever the completion service then returns, so
in particular no retry on failure or on malformed output — and that call
carries temperature 0, the model `gpt-4o-mini`, and exactly the fixed
system message plus the user prompt built from the text. -/
theorem predict_single_model_call
    (k : String) (hk : k ≠ "") (req : HttpRequest) (hp : req.path = "/predict")
    (hh : headers_get req.headers "X-API-Key" = some k)
    (complete : ChatRequest → Except String Completion)
    (readPdf : List Nat → Except String PdfDoc)
    (bytes : List Nat) (fs : FS) (doc : PdfDoc) (text : String)
    (hdoc : readPdf bytes = Except.ok doc)
    (htext : pyStrip (pagesJoined doc) = text)
    (hne : text ≠ "") :
    (app_predict (some k) complete readPdf req (Except.ok bytes) fs).2.2
        = [Event.extractCall bytes, Event.modelCall (chat_request text)]
    ∧ (chat_request text).temperature = 0
    ∧ (chat_request text).model = "gpt-4o-mini"
    ∧ (chat_request text).messages
        = [⟨"system", SYSTEM_INSTRUCTION⟩, ⟨"user", build_prompt text⟩]
    ∧ ((app_predict (some k) complete readPdf req (Except.ok bytes) fs).2.2.countP
          (fun e => match e with | Event.modelCall _ => true | _ => false)) = 1 := by
  have happ := app_predict_authorized k hk req (by rw [hp]; decide) hh
    complete readPdf (Except.ok bytes) fs
  have hx := extract_fst_ok readPdf bytes fs doc hdoc
  have hbe : (text == "") = false := by simp [hne]
  have htrace : (app_predict (some k) complete readPdf req (Except.ok bytes) fs).2.2
      = [Event.extractCall bytes, Event.modelCall (chat_request text)] := by
    rw [happ]
    cases hc : complete (chat_request text) with
    | error e => simp [predict, hx, htext, hbe, hc]
    | ok comp =>
        cases hcs : comp.choices with
        | nil => simp [predict, hx, htext, hbe, hc, hcs]
        | cons choice rest => simp [predict, hx, htext, hbe, hc, hcs]
  refine ⟨htrace, rfl, rfl, rfl, ?_⟩
  rw [htrace]
  rfl

/-- C5 witness: the one-page `"hello"` document, against a completion
service that fails the call — the trace still shows exactly one model
call. -/
theorem predict_single_model_call_witness :
    (app_predict (some "s3cret") completeReject readPdfSample authorizedRequest
        (Except.ok [7]) ⟨[]⟩).2.2
      = [Event.extractCall [7], Event.modelCall (chat_request "hello")]
    ∧ (chat_request "hello").temperature = 0
    ∧ (chat_request "hello").model = "gpt-4o-mini"
    ∧ ((app_predict (some "s3cret") completeReject readPdfSample
          authorizedRequest (Except.ok [7]) ⟨[]⟩).2.2.countP
          (fun e => match e with | Event.modelCall _ => true | _ => false)) = 1 := by
  have h := predict_single_model_call "s3cret" (by decide) authorizedRequest rfl
    rfl completeReject readPdfSample [7] ⟨[]⟩ sampleDoc "hello" rfl rfl (by decide)
  exact ⟨h.1, h.2.1, h.2.2.1, h.2.2.2.2⟩

/-- C6: when the model call succeeds and its first choice carries the text
`s`, the authorized `/predict` response is exactly
`{"resultado": s}` with transport status 200 — the string is returned
verbatim, with no parsing or validation step in between. -/
theorem predict_returns_first_choice_verbatim
    (k : String) (hk : k ≠ "") (req : HttpRequest) (hp : req.path = "/predict")
    (hh : headers_get req.headers "X-API-Key" = some k)
    (complete : ChatRequest → Except String Completion)
    (readPdf : List Nat → Except String PdfDoc)
    (bytes : List Nat) (fs : FS) (doc : PdfDoc) (text : String)
    (comp : Completion) (choice : Choice) (rest : List Choice) (s : String)
    (hdoc : readPdf bytes = Except.ok doc)
    (htext : pyStrip (pagesJoined doc) = text)
    (hne : text ≠ "")
    (hcomp : complete (chat_request text) = Except.ok comp)
    (hcs : comp.choices = choice :: rest)
    (hcontent : choice.message.content = some s) :
    (app_predict (some k) complete readPdf req (Except.ok bytes) fs).1
      = ⟨200, [("resultado", JVal.jstr s)]⟩ := by
  have happ := app_predict_authorized k hk req (by rw [hp]; decide) hh
    complete readPdf (Except.ok bytes) fs
  have hx := extract_fst_ok readPdf bytes fs doc hdoc
  have hbe : (text == "") = false := by simp [hne]
  rw [happ]
  simp [predict, hx, htext, hbe, hcomp, hcs, hcontent, jvalOfContent]

/-- C6 witness: the sample completion `"resultado json"` is returned
verbatim under the envelope key `resultado`. -/
theorem predict_returns_first_choice_verbatim_witness :
    (app_predict (some "s3cret") completeSample readPdfSample authorizedRequest
        (Except.ok [7]) ⟨[]⟩).1
      = ⟨200, [("resultado", JVal.jstr "resultado json")]⟩ :=
  predict_returns_first_choice_verbatim "s3cret" (by decide) authorizedRequest
    rfl rfl completeSample readPdfSample [7] ⟨[]⟩ sampleDoc "hello"
    ⟨[⟨⟨some "resultado json"⟩⟩]⟩ ⟨⟨some "resultado json"⟩⟩ [] "resultado json"
    rfl rfl (by decide) rfl rfl rfl

/-- C7: the endpoint handler never answers with a non-200 transport status:
every exception raised inside it — on reading the upload, on parsing the
PDF, on the network call to the completion service, or on indexing an empty
choice list — is caught, stringified, and returned as `{"error": <string>}`
with status 200. -/
theorem predict_catches_all_exceptions
    (complete : ChatRequest → Except String Completion)
    (readPdf : List Nat → Except String PdfDoc)
    (file_read : Except String (List Nat)) (fs : FS) :
    (predict complete readPdf file_read fs).1.status_code = 200
    ∧ (∀ e : String, file_read = Except.error e →
        (predict complete readPdf file_read fs).1
          = ⟨200, [("error", JVal.jstr e)]⟩)
    ∧ (∀ (bytes : List Nat) (e : String),
        file_read = Except.ok bytes → readPdf bytes = Except.error e →
        (predict complete readPdf file_read fs).1
          = ⟨200, [("error", JVal.jstr e)]⟩)
    ∧ (∀ (bytes : List Nat) (doc : PdfDoc) (e : String),
        file_read = Except.ok bytes → readPdf bytes = Except.ok doc →
        pyStrip (pagesJoined doc) ≠ "" →
        complete (chat_request (pyStrip (pagesJoined doc))) = Except.error e →
        (predict complete readPdf file_read fs).1
          = ⟨200, [("error", JVal.jstr e)]⟩)
    ∧ (∀ (bytes : List Nat) (doc : PdfDoc) (comp : Completion),
        file_read = Except.ok bytes → readPdf bytes = Except.ok doc →
        pyStrip (pagesJoined doc) ≠ "" →
        complete (chat_request (pyStrip (pagesJoined doc))) = Except.ok comp →
        comp.choices = [] →
        (predict complete readPdf file_read fs).1
          = ⟨200, [("error", JVal.jstr "list index out of range")]⟩) := by
  refine ⟨?_, ?_, ?_, ?_, ?_⟩
  · cases file_read with
    | error e => rfl
    | ok bytes =>
        cases hr : readPdf bytes with
        | error e => simp [predict, extract_fst_err readPdf bytes fs e hr]
        | ok doc =>
            have hx := extract_fst_ok readPdf bytes fs doc hr
            cases hb : pyStrip (pagesJoined doc) == "" with
            | true => simp [predict, hx, hb]
            | false =>
                cases hc : complete (chat_request (pyStrip (pagesJoined doc))) with
                | error e => simp [predict, hx, hb, hc]
                | ok comp =>
                    cases hcs : comp.choices with
                    | nil => simp [predict, hx, hb, hc, hcs]
                    | cons choice rest => simp [predict, hx, hb, hc, hcs]
  · intro e hf
    subst hf
    rfl
  · intro bytes e hf hr
    subst hf
    simp [predict, extract_fst_err readPdf bytes fs e hr]
  · intro bytes doc e hf hr hne hc
    subst hf
    have hb : (pyStrip (pagesJoined doc) == "") = false := by simp [hne]
    simp [predict, extract_fst_ok readPdf bytes fs doc hr, hb, hc]
  · intro bytes doc comp hf hr hne hc hcs
    subst hf
    have hb : (pyStrip (pagesJoined doc) == "") = false := by simp [hne]
    simp [predict, extract_fst_ok readPdf bytes fs doc hr, hb, hc, hcs]

/-- C7 witness: each failure point exercised on a concrete input — upload
read failure, reader rejection, network failure, and an empty choice
list — all answering in-band errors with status 200. -/
theorem predict_catches_all_exceptions_witness :
    (predict completeReject readPdfReject (Except.error "boom") ⟨[]⟩).1.status_code
        = 200
    ∧ (predict completeReject readPdfReject (Except.error "boom") ⟨[]⟩).1
        = ⟨200, [("error", JVal.jstr "boom")]⟩
    ∧ (predict completeReject readPdfReject (Except.ok [1]) ⟨[]⟩).1
        = ⟨200, [("error", JVal.jstr "bad pdf")]⟩
    ∧ (predict completeReject readPdfSample (Except.ok [1]) ⟨[]⟩).1
        = ⟨200, [("error", JVal.jstr "network down")]⟩
    ∧ (predict completeNoChoices readPdfSample (Except.ok [1]) ⟨[]⟩).1
        = ⟨200, [("error", JVal.jstr "list index out of range")]⟩ := by
  refine ⟨(predict_catches_all_exceptions completeReject readPdfReject
      (Except.error "boom") ⟨[]⟩).1,
    (predict_catches_all_exceptions completeReject readPdfReject
      (Except.error "boom") ⟨[]⟩).2.1 "boom" rfl,
    (predict_catches_all_exceptions completeReject readPdfReject
      (Except.ok [1]) ⟨[]⟩).2.2.1 [1] "bad pdf" rfl rfl,
    (predict_catches_all_exceptions completeReject readPdfSample
      (Except.ok [1]) ⟨[]⟩).2.2.2.1 [1] sampleDoc "network down" rfl rfl
      (by decide) rfl,
    (predict_catches_all_exceptions completeNoChoices readPdfSample
      (Except.ok [1]) ⟨[]⟩).2.2.2.2 [1] sampleDoc ⟨[]⟩ rfl rfl (by decide)
      rfl rfl⟩
